import Mathlib

/-!
Shallow embedding of the IT Provisioning Dashboard backend
(`src/main.py`, `src/schemas.py`).

The handlers in `src/main.py` read and write three document collections
(`employee`, `session`, `task`) held by an external document store.  The
store adapter itself (`database.py`: the global `db` handle, `create_document`
and `get_documents`) is not part of the sources, so those two functions are
modelled from the specification (section 4.1); everything else is translated
directly from `src/main.py`.

Documents are embedded as typed records matching the collection schemas of
`src/schemas.py` (`employee{nik,name,division,password,is_active}`,
`session{token,nik}`, `task{nik,type,status,payload}`).  Task payloads are
`Dict[str, Any]` in the source and are never inspected by any handler, so the
development is parametric in the type `α` of payload values.  A raised
`HTTPException` is embedded as an `Except.error` carrying the status code and
detail string; since no handler writes to the store before raising, an error
result leaves the store unchanged (made explicit by `step`).
-/

deriving instance DecidableEq for Except

/-- Task payloads: `payload: Optional[Dict[str, Any]]` in `src/main.py`.
A mapping from string keys to values of an arbitrary type `α`. -/
abbrev Payload (α : Type) : Type := List (String × α)

/-- `Employee` document (`src/schemas.py`, collection `employee`). -/
structure EmployeeDoc where
  nik : String
  name : Option String
  division : Option String
  password : String
  is_active : Bool
deriving DecidableEq

/-- `Session` document (`src/schemas.py`, collection `session`). -/
structure SessionDoc where
  token : String
  nik : String
deriving DecidableEq

/-- `Task` document as built by `create_task` (`src/main.py` lines 134-139):
owner `nik`, `type`, `status`, `payload`.  The store-assigned `_id` is kept
alongside the document in the store (see `Store.tasks`). -/
structure TaskDoc (α : Type) where
  nik : String
  type : String
  status : String
  payload : Payload α
deriving DecidableEq

/-- The persisted state visible to the handlers: the `db` handle (configured
or not, `database.py`) and the three collections, each in store-native
(insertion) order.  Tasks are stored with their store-assigned identifier
(the Mongo `_id`), generated from the counter `nextId`. -/
structure Store (α : Type) where
  dbConfigured : Bool
  employees : List EmployeeDoc
  sessions : List SessionDoc
  tasks : List (Nat × TaskDoc α)
  nextId : Nat
deriving DecidableEq

/-- An embedded `HTTPException(status_code=..., detail=...)`. -/
structure HTTPError where
  status_code : Nat
  detail : String
deriving DecidableEq

/-- `LoginResponse` (`src/main.py` lines 27-31). -/
structure LoginResponse where
  token : String
  nik : String
  name : Option String
  division : Option String
deriving DecidableEq

/-- `TaskResponse` (`src/main.py` lines 40-42). -/
structure TaskResponse where
  id : String
  status : String
deriving DecidableEq

/-- A task record as returned by `list_my_tasks` (`src/main.py` lines
150-155): the store document with the internal `_id` key replaced by the
string field `id`. -/
structure TaskOut (α : Type) where
  id : String
  nik : String
  type : String
  status : String
  payload : Payload α
deriving DecidableEq

/-- `get_collection` (`src/main.py` lines 46-49): raises a 500
`HTTPException` when the `db` handle is unconfigured (`db is None`).  In this
typed embedding the returned collection handle is the corresponding `Store`
field, so only the check is carried here. -/
def get_collection {α : Type} (s : Store α) : Except HTTPError Unit :=
  if s.dbConfigured then Except.ok () else Except.error ⟨500, "Database not configured"⟩

/-- `find_one` on the `employee` collection with filter `{"nik": nik}`:
first document in store order whose `nik` field equals the filter value. -/
def findOneEmployee (l : List EmployeeDoc) (nik : String) : Option EmployeeDoc :=
  l.find? fun e => e.nik == nik

/-- `find_one` on the `session` collection with filter `{"token": token}`. -/
def findOneSession (l : List SessionDoc) (token : String) : Option SessionDoc :=
  l.find? fun d => d.token == token

/-- `auth_dependency` (`src/main.py` lines 52-61).  `token` is `Option`
because `create_task` and `list_my_tasks` pass `None` when no bearer token
was extracted; Python's `if not token` rejects both `None` and `""` before
any store access. -/
def auth_dependency {α : Type} (s : Store α) (token : Option String) :
    Except HTTPError String :=
  match token with
  | none => Except.error ⟨401, "Token required"⟩
  | some t =>
    if t = "" then Except.error ⟨401, "Token required"⟩
    else
      match get_collection s with
      | Except.error e => Except.error e
      | Except.ok _ =>
        match findOneSession s.sessions t with
        | none => Except.error ⟨401, "Invalid token"⟩
        | some doc => Except.ok doc.nik

/-- ASCII lowercasing of one character: the effect of Python's `str.lower`
on a basic-latin header character (identical to core `Char.toLower`, which
is likewise latin-only, but written on `Nat` codepoints so it reduces). -/
def lowerChar (c : Char) : Char :=
  if 65 ≤ c.toNat ∧ c.toNat ≤ 90 then Char.ofNat (c.toNat + 32) else c

/-- Python `s.lower()` (`src/main.py` line 126), as a character list. -/
def lowerStr (s : String) : List Char :=
  s.data.map lowerChar

/-- The character list after the first space: Python `s.split(" ", 1)[1]`
(`src/main.py` line 127).  When `s` has no space the Python expression would
fail, but every caller guards with `startswith("bearer ")`. -/
def afterFirstSpace : List Char → List Char
  | [] => []
  | c :: cs => if c = ' ' then cs else afterFirstSpace cs

/-- The bearer-token extraction done inline in `create_task` and
`list_my_tasks` (`src/main.py` lines 125-127 and 146-148):
`token = None; if authorization and authorization.lower().startswith("bearer "):
token = authorization.split(" ", 1)[1]`. -/
def parseBearer (authorization : Option String) : Option String :=
  match authorization with
  | none => none
  | some a =>
    if a != "" && "bearer ".data.isPrefixOf (lowerStr a) then
      some (String.mk (afterFirstSpace a.data))
    else none

/-- `login` (`src/main.py` lines 95-107).  `tok` stands for the value of
`secrets.token_hex(16)`, random data external to the program, passed in as an
oracle argument. -/
def login {α : Type} (s : Store α) (nik password tok : String) :
    Except HTTPError (LoginResponse × Store α) :=
  match get_collection s with
  | Except.error e => Except.error e
  | Except.ok _ =>
    match findOneEmployee s.employees nik with
    | none => Except.error ⟨401, "NIK tidak ditemukan"⟩
    | some user =>
      if user.password != password then Except.error ⟨401, "Password salah"⟩
      else
        Except.ok (⟨tok, user.nik, user.name, user.division⟩,
          { s with sessions := s.sessions ++ [⟨tok, user.nik⟩] })

/-- The closed task-type enum checked by `create_task`
(`src/main.py` line 130). -/
def task_types : List String :=
  ["install_packages", "activate_windows", "activate_office"]

/-- Modelled from the spec: `create_document` is imported from `database.py`,
which is not among the sources.  Spec 4.1: `insertDocument(collection, doc) ->
id`, "insert returns a stable unique identifier usable for later lookup";
spec 3: "Identity is an opaque generated identifier assigned by the store."
The store assigns the counter value as the new document's identifier and
returns its string form. -/
def create_document {α : Type} (s : Store α) (doc : TaskDoc α) :
    String × Store α :=
  (toString s.nextId,
   { s with tasks := s.tasks ++ [(s.nextId, doc)], nextId := s.nextId + 1 })

/-- Modelled from the spec: `get_documents` is imported from `database.py`,
which is not among the sources.  Spec 4.1: `findDocuments(collection, filter,
limit)` returns the documents matching the exact-match filter (here
`{"nik": nik}`) in store-native order, capped at `limit`. -/
def get_documents {α : Type} (s : Store α) (nik : String) (limit : Nat) :
    List (Nat × TaskDoc α) :=
  (s.tasks.filter fun t => t.2.nik == nik).take limit

/-- `create_task` (`src/main.py` lines 122-141). -/
def create_task {α : Type} (s : Store α) (ty : String) (p : Option (Payload α))
    (authorization : Option String) :
    Except HTTPError (TaskResponse × Store α) :=
  match auth_dependency s (parseBearer authorization) with
  | Except.error e => Except.error e
  | Except.ok nik =>
    if !(task_types.contains ty) then Except.error ⟨400, "Invalid task type"⟩
    else
      let doc : TaskDoc α := ⟨nik, ty, "pending", p.getD []⟩
      let r := create_document s doc
      Except.ok (⟨r.1, "pending"⟩, r.2)

/-- `list_my_tasks` (`src/main.py` lines 144-155): authenticate, query tasks
with filter `{"nik": nik}` and `limit=50`, then rename each record's
store-internal `_id` into the string field `id`. -/
def list_my_tasks {α : Type} (s : Store α) (authorization : Option String) :
    Except HTTPError (List (TaskOut α)) :=
  match auth_dependency s (parseBearer authorization) with
  | Except.error e => Except.error e
  | Except.ok nik =>
    Except.ok ((get_documents s nik 50).map fun t =>
      ⟨toString t.1, t.2.nik, t.2.type, t.2.status, t.2.payload⟩)

/-- `seed_employee` (`src/main.py` lines 65-87): on startup, insert each of
the two fixed demo employees unless a document with that `nik` already
exists; a no-op when the `db` handle is unconfigured. -/
def seed_employee {α : Type} (s : Store α) : Store α :=
  if !s.dbConfigured then s
  else
    let s1 :=
      if (findOneEmployee s.employees "EMP001").isNone then
        { s with employees := s.employees ++
            [⟨"EMP001", some "Demo User", some "IT", "12345", true⟩] }
      else s
    if (findOneEmployee s1.employees "555501254121").isNone then
      { s1 with employees := s1.employees ++
          [⟨"555501254121", some "User 555501254121", some "IT", "12345", true⟩] }
    else s1

/-- One API interaction against the store: the surface of `src/main.py` that
can touch persisted state (login, task creation, task listing, startup
seeding).  Each constructor carries the request inputs; `login` also carries
the random-token oracle. -/
inductive Op (α : Type) where
  | login (nik password tok : String)
  | createTask (ty : String) (p : Option (Payload α)) (authorization : Option String)
  | listTasks (authorization : Option String)
  | seed

/-- The store after handling one request: a raised `HTTPException` aborts the
handler before any write (no handler in `src/main.py` writes before raising),
so an error leaves the store unchanged. -/
def step {α : Type} (s : Store α) (op : Op α) : Store α :=
  match op with
  | Op.login nik pw tok =>
    match login s nik pw tok with
    | Except.ok r => r.2
    | Except.error _ => s
  | Op.createTask ty p authorization =>
    match create_task s ty p authorization with
    | Except.ok r => r.2
    | Except.error _ => s
  | Op.listTasks _ => s
  | Op.seed => seed_employee s

/-- The store after a sequence of API interactions. -/
def evolve {α : Type} (s : Store α) (ops : List (Op α)) : Store α :=
  ops.foldl step s

/-! Helper lemmas shared by the claim theorems. -/

/-- Inversion of a successful `login`: the store was configured, the returned
token is the generated one, and the only write is one appended session
binding that token to the requested `nik`. -/
theorem login_ok_inv {α : Type} (s : Store α) (nik pw tok : String)
    (resp : LoginResponse) (s1 : Store α)
    (h : login s nik pw tok = Except.ok (resp, s1)) :
    s.dbConfigured = true ∧ resp.token = tok ∧
    s1 = { s with sessions := s.sessions ++ [⟨tok, nik⟩] } := by
  by_cases hdb : s.dbConfigured
  · rcases hfind : findOneEmployee s.employees nik with _ | user
    · simp [login, get_collection, hdb, hfind] at h
    · have hnik : user.nik = nik := by
        have := List.find?_some hfind
        simpa using this
      by_cases hpw : user.password = pw
      · simp [login, get_collection, hdb, hfind, hpw] at h
        refine ⟨hdb, ?_, ?_⟩
        · rw [← h.1]
        · rw [← h.2, hnik, hdb]
      · simp [login, get_collection, hdb, hfind, hpw] at h
  · simp [login, get_collection, hdb] at h

/-- Inversion of a successful `create_task`: the session collection and the
`db` handle are untouched (the single write goes to the task collection). -/
theorem create_task_ok_inv {α : Type} (s : Store α) (ty : String)
    (p : Option (Payload α)) (authorization : Option String)
    (r : TaskResponse) (s1 : Store α)
    (h : create_task s ty p authorization = Except.ok (r, s1)) :
    s1.sessions = s.sessions ∧ s1.dbConfigured = s.dbConfigured := by
  rcases hauth : auth_dependency s (parseBearer authorization) with e | nik
  · simp [create_task, hauth] at h
  · by_cases hty : ty ∈ task_types
    · simp [create_task, hauth, hty, create_document] at h
      rw [← h.2]
      exact ⟨rfl, rfl⟩
    · simp [create_task, hauth, hty] at h

/-- `seed_employee` writes only to the employee collection. -/
theorem seed_employee_keeps {α : Type} (s : Store α) :
    (seed_employee s).sessions = s.sessions ∧
    (seed_employee s).dbConfigured = s.dbConfigured := by
  unfold seed_employee
  split
  · exact ⟨rfl, rfl⟩
  · dsimp only
    split <;> split <;> exact ⟨rfl, rfl⟩

/-- No API interaction removes a session or flips the `db` handle: handling
any request only ever appends to the session collection. -/
theorem step_keeps {α : Type} (s : Store α) (op : Op α) :
    (step s op).dbConfigured = s.dbConfigured ∧
    ∃ r, (step s op).sessions = s.sessions ++ r := by
  cases op with
  | login nik pw tok =>
    rcases hl : login s nik pw tok with e | r0
    · simp [step, hl]
    · obtain ⟨resp, s1⟩ := r0
      obtain ⟨_, _, hs1⟩ := login_ok_inv s nik pw tok resp s1 hl
      simp [step, hl, hs1]
  | createTask ty p authorization =>
    rcases hc : create_task s ty p authorization with e | r0
    · simp [step, hc]
    · obtain ⟨resp, s1⟩ := r0
      obtain ⟨hsess, hdb⟩ := create_task_ok_inv s ty p authorization resp s1 hc
      simp [step, hc, hsess, hdb]
  | listTasks authorization => simp [step]
  | seed =>
    obtain ⟨h1, h2⟩ := seed_employee_keeps s
    simp [step, h1, h2]

/-- Across any sequence of API interactions the session collection only
grows at the tail and the `db` handle keeps its configuration. -/
theorem evolve_keeps {α : Type} (s : Store α) (ops : List (Op α)) :
    (evolve s ops).dbConfigured = s.dbConfigured ∧
    ∃ r, (evolve s ops).sessions = s.sessions ++ r := by
  induction ops generalizing s with
  | nil => exact ⟨rfl, [], by simp [evolve]⟩
  | cons op ops ih =>
    obtain ⟨h1, r1, hr1⟩ := step_keeps s op
    obtain ⟨h2, r2, hr2⟩ := ih (step s op)
    have he : evolve s (op :: ops) = evolve (step s op) ops := by
      simp [evolve, List.foldl]
    refine ⟨by rw [he, h2, h1], r1 ++ r2, ?_⟩
    rw [he, hr2, hr1, List.append_assoc]

/-- Every error raised by `auth_dependency` carries status 401 (missing or
invalid token) or 500 (store unconfigured); in particular never 400. -/
theorem auth_dependency_error_code {α : Type} (s : Store α) (t : Option String)
    (e : HTTPError) (h : auth_dependency s t = Except.error e) :
    e.status_code = 401 ∨ e.status_code = 500 := by
  unfold auth_dependency at h
  rcases t with _ | t
  · injection h with h
    rw [← h]
    left
    rfl
  · by_cases hne : t = ""
    · simp [hne] at h
      rw [← h]
      left
      rfl
    · simp [hne] at h
      unfold get_collection at h
      by_cases hdb : s.dbConfigured
      · simp [hdb] at h
        rcases hfs : findOneSession s.sessions t with _ | doc
        · rw [hfs] at h
          injection h with h
          rw [← h]
          left
          rfl
        · rw [hfs] at h
          cases h
      · simp [hdb] at h
        rw [← h]
        right
        rfl

/-- C1: a token returned by a successful login for employee identifier `nik`
authenticates exactly `nik` on every subsequent call to the session
authenticator, across any number of further API interactions (no session is
ever removed or expired by the surface in `src/main.py`).  The generated
token is an oracle for `secrets.token_hex(16)`: a fresh 32-hex-character
value, hence nonempty and distinct from every stored session token. -/
theorem login_token_authenticates {α : Type} (s : Store α) (nik pw tok : String)
    (resp : LoginResponse) (s1 : Store α) (ops : List (Op α))
    (htok : tok ≠ "")
    (hfresh : ∀ d ∈ s.sessions, d.token ≠ tok)
    (hlogin : login s nik pw tok = Except.ok (resp, s1)) :
    resp.token = tok ∧
    auth_dependency (evolve s1 ops) (some tok) = Except.ok nik := by
  obtain ⟨hdb, htokeq, hs1⟩ := login_ok_inv s nik pw tok resp s1 hlogin
  obtain ⟨hdb2, r, hr⟩ := evolve_keeps s1 ops
  refine ⟨htokeq, ?_⟩
  have hdbe : (evolve s1 ops).dbConfigured = true := by
    rw [hdb2, hs1]; exact hdb
  have hsess : (evolve s1 ops).sessions = (s.sessions ++ [⟨tok, nik⟩]) ++ r := by
    rw [hr, hs1]
  have hfind : findOneSession (evolve s1 ops).sessions tok = some ⟨tok, nik⟩ := by
    rw [hsess]
    unfold findOneSession
    rw [List.find?_append, List.find?_append]
    have h1 : s.sessions.find? (fun d => d.token == tok) = none := by
      rw [List.find?_eq_none]
      intro a ha
      simpa using hfresh a ha
    rw [h1]
    simp
  simp [auth_dependency, htok, get_collection, hdbe, hfind]

/-- C2: with a configured store, login with an unknown identifier fails with
the `UnknownIdentifier` error (401, "NIK tidak ditemukan") and never the
`BadPassword` one; login with a known identifier and a wrong password fails
with the `BadPassword` error (401, "Password salah") and never the
`UnknownIdentifier` one; the two error responses are distinguishable. -/
theorem login_failure_distinction {α : Type} (s : Store α) (nik pw tok : String)
    (hdb : s.dbConfigured = true) :
    (findOneEmployee s.employees nik = none →
      login s nik pw tok = Except.error ⟨401, "NIK tidak ditemukan"⟩) ∧
    (∀ user, findOneEmployee s.employees nik = some user → user.password ≠ pw →
      login s nik pw tok = Except.error ⟨401, "Password salah"⟩) ∧
    (⟨401, "NIK tidak ditemukan"⟩ : HTTPError) ≠ (⟨401, "Password salah"⟩ : HTTPError) := by
  refine ⟨?_, ?_, by decide⟩
  · intro h
    simp [login, get_collection, hdb, h]
  · intro user h hp
    simp [login, get_collection, hdb, h, hp]

/-- C3: `create_task` authenticates before validating the task type.  For a
request whose bearer token is absent, malformed, or unknown to the (reachable)
session store, it fails with a 401 error and the store is unchanged — even
when the supplied type lies outside the enum; and the 400 `InvalidTaskType`
error is only ever reported after authentication has succeeded. -/
theorem create_task_auth_first {α : Type} (s : Store α) (ty : String)
    (p : Option (Payload α)) (authorization : Option String) :
    (parseBearer authorization = none ∨ parseBearer authorization = some "" ∨
      (∃ t, parseBearer authorization = some t ∧ t ≠ "" ∧ s.dbConfigured = true ∧
        findOneSession s.sessions t = none) →
      (∃ e, create_task s ty p authorization = Except.error e ∧ e.status_code = 401) ∧
      step s (Op.createTask ty p authorization) = s) ∧
    (∀ e2, create_task s ty p authorization = Except.error e2 → e2.status_code = 400 →
      ∃ n, auth_dependency s (parseBearer authorization) = Except.ok n ∧
        task_types.contains ty = false) := by
  constructor
  · intro hbad
    have hauth : ∃ d, auth_dependency s (parseBearer authorization) = Except.error d ∧
        d.status_code = 401 := by
      rcases hbad with h | h | ⟨t, ht, hne, hdb, hfind⟩
      · exact ⟨⟨401, "Token required"⟩, by simp [auth_dependency, h], rfl⟩
      · exact ⟨⟨401, "Token required"⟩, by simp [auth_dependency, h], rfl⟩
      · exact ⟨⟨401, "Invalid token"⟩,
          by simp [auth_dependency, ht, hne, get_collection, hdb, hfind], rfl⟩
    obtain ⟨d, hd, hd401⟩ := hauth
    refine ⟨⟨d, by simp [create_task, hd], hd401⟩, ?_⟩
    simp [step, create_task, hd]
  · intro e2 he2 h400
    rcases hauth : auth_dependency s (parseBearer authorization) with d | n
    · simp [create_task, hauth] at he2
      rw [← he2] at h400
      rcases auth_dependency_error_code s (parseBearer authorization) d hauth with h | h <;>
        rw [h400] at h <;> simp at h
    · by_cases hty : ty ∈ task_types
      · simp [create_task, hauth, hty] at he2
      · exact ⟨n, rfl, by simpa using hty⟩

/-- C4: an authenticated `create_task` with a type in the three-value enum
persists exactly one task record — status `"pending"`, the authenticated
employee's identifier, the given type, and the given payload (empty mapping
when absent) — under a store-generated identifier, and returns that
identifier with the literal status `"pending"`. -/
theorem create_task_success {α : Type} (s : Store α) (ty : String)
    (p : Option (Payload α)) (authorization : Option String) (nik : String)
    (hauth : auth_dependency s (parseBearer authorization) = Except.ok nik)
    (hty : task_types.contains ty = true) :
    create_task s ty p authorization =
      Except.ok (⟨toString s.nextId, "pending"⟩,
        { s with tasks := s.tasks ++ [(s.nextId, ⟨nik, ty, "pending", p.getD []⟩)],
                 nextId := s.nextId + 1 }) := by
  have hty2 : ty ∈ task_types := by simpa using hty
  simp [create_task, hauth, hty2, create_document]

/-- C5: an authenticated `create_task` whose type lies outside the
three-value enum fails with the 400 `InvalidTaskType` client error and
leaves the store unchanged (no task record is persisted). -/
theorem create_task_invalid_type {α : Type} (s : Store α) (ty : String)
    (p : Option (Payload α)) (authorization : Option String) (nik : String)
    (hauth : auth_dependency s (parseBearer authorization) = Except.ok nik)
    (hty : task_types.contains ty = false) :
    create_task s ty p authorization = Except.error ⟨400, "Invalid task type"⟩ ∧
    step s (Op.createTask ty p authorization) = s := by
  have hty2 : ty ∉ task_types := by simpa using hty
  constructor
  · simp [create_task, hauth, hty2]
  · simp [step, create_task, hauth, hty2]

/-- C6: an authenticated `list_my_tasks` succeeds, and every returned record
is owned by the authenticated identifier (whatever the store holds), at most
50 records are returned, and each record is a stored task document whose
store-assigned identifier is exposed as the string field `id` (the rename of
the store-internal `_id` key; `TaskOut` has no other identifier field). -/
theorem list_my_tasks_owner_cap_rename {α : Type} (s : Store α)
    (authorization : Option String) (nik : String)
    (hauth : auth_dependency s (parseBearer authorization) = Except.ok nik) :
    ∃ out, list_my_tasks s authorization = Except.ok out ∧
      (∀ r ∈ out, r.nik = nik) ∧
      out.length ≤ 50 ∧
      (∀ r ∈ out, ∃ i d, (i, d) ∈ s.tasks ∧ d.nik = nik ∧
        r = ⟨toString i, d.nik, d.type, d.status, d.payload⟩) := by
  refine ⟨(get_documents s nik 50).map fun t =>
      ⟨toString t.1, t.2.nik, t.2.type, t.2.status, t.2.payload⟩,
    by simp [list_my_tasks, hauth], ?_, ?_, ?_⟩
  · intro r hr
    simp only [get_documents, List.mem_map] at hr
    obtain ⟨t, ht, hrt⟩ := hr
    have ht2 := List.mem_of_mem_take ht
    have := (List.mem_filter.mp ht2).2
    rw [← hrt]
    simpa using this
  · rw [List.length_map]
    exact (List.length_take_le _ _)
  · intro r hr
    simp only [get_documents, List.mem_map] at hr
    obtain ⟨t, ht, hrt⟩ := hr
    have ht2 := List.mem_of_mem_take ht
    have hmem := List.mem_filter.mp ht2
    refine ⟨t.1, t.2, hmem.1, by simpa using hmem.2, ?_⟩
    rw [← hrt]

/-- C7: a request whose Authorization header is absent or not of the form
`Bearer <token>` is rejected by the session authenticator with the 401
`MissingToken` error ("Token required") on every store state — configured or
not, i.e. before any store access — and an invalid (unknown) token on a
reachable store is likewise rejected with status 401, so both are treated
identically at the protected routes. -/
theorem missing_token_short_circuit {α : Type} (authorization : Option String)
    (h : parseBearer authorization = none ∨ parseBearer authorization = some "") :
    (∀ s : Store α, auth_dependency s (parseBearer authorization) =
      Except.error ⟨401, "Token required"⟩) ∧
    (∀ (s2 : Store α) (t : String), t ≠ "" → s2.dbConfigured = true →
      findOneSession s2.sessions t = none →
      ∃ e, auth_dependency s2 (some t) = Except.error e ∧ e.status_code = 401) := by
  constructor
  · intro s
    rcases h with h | h <;> simp [auth_dependency, h]
  · intro s2 t hne hdb hfind
    exact ⟨⟨401, "Invalid token"⟩,
      by simp [auth_dependency, hne, get_collection, hdb, hfind], rfl⟩

/-- C8: when the store is unconfigured (`db is None`), every operation that
reaches the store — login, the session authenticator on a present token, task
creation and task listing with a parsed bearer token — fails with the 500
`StoreUnavailable` error ("Database not configured"), whose status code is
distinguishable from the 401/404-style "not found" outcomes. -/
theorem store_unavailable_500 {α : Type} (s : Store α)
    (hdb : s.dbConfigured = false) :
    (∀ nik pw tok, login s nik pw tok =
      Except.error ⟨500, "Database not configured"⟩) ∧
    (∀ t : String, t ≠ "" → auth_dependency s (some t) =
      Except.error ⟨500, "Database not configured"⟩) ∧
    (∀ (ty : String) (p : Option (Payload α)) (authorization : Option String) (t : String),
      parseBearer authorization = some t → t ≠ "" →
      create_task s ty p authorization = Except.error ⟨500, "Database not configured"⟩) ∧
    (∀ (authorization : Option String) (t : String),
      parseBearer authorization = some t → t ≠ "" →
      list_my_tasks s authorization = Except.error ⟨500, "Database not configured"⟩) ∧
    (⟨500, "Database not configured"⟩ : HTTPError).status_code ≠ 401 ∧
    (⟨500, "Database not configured"⟩ : HTTPError).status_code ≠ 404 := by
  have hauth : ∀ t : String, t ≠ "" → auth_dependency s (some t) =
      Except.error ⟨500, "Database not configured"⟩ := by
    intro t hne
    simp [auth_dependency, hne, get_collection, hdb]
  refine ⟨?_, hauth, ?_, ?_, by decide, by decide⟩
  · intro nik pw tok
    simp [login, get_collection, hdb]
  · intro ty p authorization t ht hne
    rw [create_task, ht, hauth t hne]
  · intro authorization t ht hne
    rw [list_my_tasks, ht, hauth t hne]

/-- C9: startup seeding is idempotent — each of the two fixed demo employees
is inserted only when absent, so running `seed_employee` on a store whose
employee collection already holds both identifiers leaves the whole store
(in particular the employee collection) unchanged. -/
theorem seed_employee_idempotent_when_present {α : Type} (s : Store α)
    (h1 : (findOneEmployee s.employees "EMP001").isSome = true)
    (h2 : (findOneEmployee s.employees "555501254121").isSome = true) :
    seed_employee s = s := by
  rcases hf1 : findOneEmployee s.employees "EMP001" with _ | u1
  · rw [hf1] at h1
    simp at h1
  · rcases hf2 : findOneEmployee s.employees "555501254121" with _ | u2
    · rw [hf2] at h2
      simp at h2
    · simp [seed_employee, hf1, hf2]

/-- C10: `login` never reads the employee's `is_active` flag — for a stored
employee record whose flag is `false`, login with that identifier and the
matching password still succeeds, issues the session token, and returns the
record's display fields exactly as it would for an active employee. -/
theorem login_ignores_is_active {α : Type} (s : Store α) (nik pw tok : String)
    (e : EmployeeDoc)
    (hdb : s.dbConfigured = true)
    (hfind : findOneEmployee s.employees nik = some e)
    (_hinactive : e.is_active = false)
    (hpw : e.password = pw) :
    login s nik pw tok =
      Except.ok (⟨tok, e.nik, e.name, e.division⟩,
        { s with sessions := s.sessions ++ [⟨tok, e.nik⟩] }) := by
  simp [login, get_collection, hdb, hfind, hpw]

/-- Witness for C1: a concrete login followed by further interactions. -/
theorem login_token_authenticates_witness :
    ("cafe" : String) ≠ "" ∧
    (∀ d ∈ ([] : List SessionDoc), d.token ≠ "cafe") ∧
    login (⟨true, [⟨"EMP001", some "Demo User", some "IT", "12345", true⟩],
        [], [], 0⟩ : Store Unit) "EMP001" "12345" "cafe" =
      Except.ok (⟨"cafe", "EMP001", some "Demo User", some "IT"⟩,
        ⟨true, [⟨"EMP001", some "Demo User", some "IT", "12345", true⟩],
          [⟨"cafe", "EMP001"⟩], [], 0⟩) ∧
    auth_dependency
      (evolve (⟨true, [⟨"EMP001", some "Demo User", some "IT", "12345", true⟩],
          [⟨"cafe", "EMP001"⟩], [], 0⟩ : Store Unit)
        [Op.createTask "install_packages" none (some "Bearer cafe"), Op.seed])
      (some "cafe") = Except.ok "EMP001" :=
  ⟨by decide, by decide, by decide,
    (login_token_authenticates
      (⟨true, [⟨"EMP001", some "Demo User", some "IT", "12345", true⟩], [], [], 0⟩ : Store Unit)
      "EMP001" "12345" "cafe"
      ⟨"cafe", "EMP001", some "Demo User", some "IT"⟩
      ⟨true, [⟨"EMP001", some "Demo User", some "IT", "12345", true⟩],
        [⟨"cafe", "EMP001"⟩], [], 0⟩
      [Op.createTask "install_packages" none (some "Bearer cafe"), Op.seed]
      (by decide) (by decide) (by decide)).2⟩

/-- Witness for C2: a store holding only `EMP001`; an unknown identifier and
a wrong password produce the two distinct 401 errors. -/
theorem login_failure_distinction_witness :
    (⟨true, [⟨"EMP001", some "Demo User", some "IT", "12345", true⟩],
      [], [], 0⟩ : Store Unit).dbConfigured = true ∧
    findOneEmployee [⟨"EMP001", some "Demo User", some "IT", "12345", true⟩] "GHOST" = none ∧
    login (⟨true, [⟨"EMP001", some "Demo User", some "IT", "12345", true⟩],
        [], [], 0⟩ : Store Unit) "GHOST" "12345" "t1" =
      Except.error ⟨401, "NIK tidak ditemukan"⟩ ∧
    login (⟨true, [⟨"EMP001", some "Demo User", some "IT", "12345", true⟩],
        [], [], 0⟩ : Store Unit) "EMP001" "wrong" "t1" =
      Except.error ⟨401, "Password salah"⟩ :=
  ⟨rfl, by decide,
    (login_failure_distinction _ "GHOST" "12345" "t1" rfl).1 (by decide),
    (login_failure_distinction _ "EMP001" "wrong" "t1" rfl).2.1
      ⟨"EMP001", some "Demo User", some "IT", "12345", true⟩ (by decide) (by decide)⟩

/-- Witness for C3: an unknown token with an invalid type yields 401 and no
write; with a valid token the 400 error implies authentication succeeded. -/
theorem create_task_auth_first_witness :
    (∃ e, create_task (⟨true, [], [⟨"tok1", "EMP001"⟩], [], 0⟩ : Store Unit)
        "reboot" none (some "Bearer ghost") = Except.error e ∧ e.status_code = 401) ∧
    step (⟨true, [], [⟨"tok1", "EMP001"⟩], [], 0⟩ : Store Unit)
        (Op.createTask "reboot" none (some "Bearer ghost")) =
      ⟨true, [], [⟨"tok1", "EMP001"⟩], [], 0⟩ ∧
    (∃ n, auth_dependency (⟨true, [], [⟨"tok1", "EMP001"⟩], [], 0⟩ : Store Unit)
        (parseBearer (some "Bearer tok1")) = Except.ok n ∧
      task_types.contains "reboot" = false) :=
  ⟨((create_task_auth_first _ "reboot" none (some "Bearer ghost")).1
      (Or.inr (Or.inr ⟨"ghost", by decide, by decide, rfl, by decide⟩))).1,
   ((create_task_auth_first _ "reboot" none (some "Bearer ghost")).1
      (Or.inr (Or.inr ⟨"ghost", by decide, by decide, rfl, by decide⟩))).2,
   (create_task_auth_first _ "reboot" none (some "Bearer tok1")).2
      ⟨400, "Invalid task type"⟩ (by decide) rfl⟩

/-- Witness for C4: a concrete authenticated creation with a payload. -/
theorem create_task_success_witness :
    auth_dependency (⟨true, [], [⟨"tok1", "EMP001"⟩], [], 7⟩ : Store Unit)
      (parseBearer (some "Bearer tok1")) = Except.ok "EMP001" ∧
    task_types.contains "install_packages" = true ∧
    create_task (⟨true, [], [⟨"tok1", "EMP001"⟩], [], 7⟩ : Store Unit)
        "install_packages" (some [("pkg", ())]) (some "Bearer tok1") =
      Except.ok (⟨"7", "pending"⟩,
        ⟨true, [], [⟨"tok1", "EMP001"⟩],
          [(7, ⟨"EMP001", "install_packages", "pending", [("pkg", ())]⟩)], 8⟩) :=
  ⟨by decide, by decide,
    create_task_success _ "install_packages" (some [("pkg", ())])
      (some "Bearer tok1") "EMP001" (by decide) (by decide)⟩

/-- Witness for C5: a concrete authenticated creation with type "reboot". -/
theorem create_task_invalid_type_witness :
    auth_dependency (⟨true, [], [⟨"tok2", "EMP002"⟩], [], 3⟩ : Store Unit)
      (parseBearer (some "Bearer tok2")) = Except.ok "EMP002" ∧
    task_types.contains "reboot" = false ∧
    create_task (⟨true, [], [⟨"tok2", "EMP002"⟩], [], 3⟩ : Store Unit)
        "reboot" none (some "Bearer tok2") =
      Except.error ⟨400, "Invalid task type"⟩ ∧
    step (⟨true, [], [⟨"tok2", "EMP002"⟩], [], 3⟩ : Store Unit)
        (Op.createTask "reboot" none (some "Bearer tok2")) =
      ⟨true, [], [⟨"tok2", "EMP002"⟩], [], 3⟩ :=
  ⟨by decide, by decide,
    (create_task_invalid_type _ "reboot" none (some "Bearer tok2") "EMP002"
      (by decide) (by decide)).1,
    (create_task_invalid_type _ "reboot" none (some "Bearer tok2") "EMP002"
      (by decide) (by decide)).2⟩

/-- Witness for C6: a store holding tasks of two employees; the listing for
`EMP002` meets the ownership, cap and rename properties. -/
theorem list_my_tasks_owner_cap_rename_witness :
    auth_dependency (⟨true, [], [⟨"tok2", "EMP002"⟩],
        [(0, ⟨"EMP001", "install_packages", "pending", []⟩),
         (1, ⟨"EMP002", "activate_office", "pending", []⟩)], 2⟩ : Store Unit)
      (parseBearer (some "Bearer tok2")) = Except.ok "EMP002" ∧
    (∃ out, list_my_tasks (⟨true, [], [⟨"tok2", "EMP002"⟩],
        [(0, ⟨"EMP001", "install_packages", "pending", []⟩),
         (1, ⟨"EMP002", "activate_office", "pending", []⟩)], 2⟩ : Store Unit)
        (some "Bearer tok2") = Except.ok out ∧
      (∀ r ∈ out, r.nik = "EMP002") ∧
      out.length ≤ 50 ∧
      (∀ r ∈ out, ∃ i d,
        (i, d) ∈ [(0, (⟨"EMP001", "install_packages", "pending", []⟩ : TaskDoc Unit)),
                  (1, ⟨"EMP002", "activate_office", "pending", []⟩)] ∧
        d.nik = "EMP002" ∧ r = ⟨toString i, d.nik, d.type, d.status, d.payload⟩)) :=
  ⟨by decide,
    list_my_tasks_owner_cap_rename _ (some "Bearer tok2") "EMP002" (by decide)⟩

/-- Witness for C7: a non-bearer header is rejected with 401 on every store,
and an unknown token on a reachable store is rejected with 401 as well. -/
theorem missing_token_short_circuit_witness :
    (parseBearer (some "Basic abc") = none ∨ parseBearer (some "Basic abc") = some "") ∧
    (∀ s : Store Unit, auth_dependency s (parseBearer (some "Basic abc")) =
      Except.error ⟨401, "Token required"⟩) ∧
    (∃ e, auth_dependency (⟨true, [], [], [], 0⟩ : Store Unit) (some "ghost") =
      Except.error e ∧ e.status_code = 401) :=
  ⟨Or.inl (by decide),
   (missing_token_short_circuit (some "Basic abc") (Or.inl (by decide))).1,
   (missing_token_short_circuit (α := Unit) (some "Basic abc") (Or.inl (by decide))).2
      ⟨true, [], [], [], 0⟩ "ghost" (by decide) rfl (by decide)⟩

/-- Witness for C8: an unconfigured store rejects login and an authenticated
task creation with the 500 error. -/
theorem store_unavailable_500_witness :
    (⟨false, [], [], [], 0⟩ : Store Unit).dbConfigured = false ∧
    login (⟨false, [], [], [], 0⟩ : Store Unit) "EMP001" "12345" "t9" =
      Except.error ⟨500, "Database not configured"⟩ ∧
    create_task (⟨false, [], [], [], 0⟩ : Store Unit)
        "install_packages" none (some "Bearer t9") =
      Except.error ⟨500, "Database not configured"⟩ :=
  ⟨rfl,
   (store_unavailable_500 _ rfl).1 "EMP001" "12345" "t9",
   (store_unavailable_500 (α := Unit) _ rfl).2.2.1 "install_packages" none
      (some "Bearer t9") "t9" (by decide) (by decide)⟩

/-- Witness for C9: a store already holding both demo employees is left
unchanged by seeding. -/
theorem seed_employee_idempotent_when_present_witness :
    (findOneEmployee [⟨"EMP001", some "Demo User", some "IT", "12345", true⟩,
        ⟨"555501254121", some "User 555501254121", some "IT", "12345", true⟩]
      "EMP001").isSome = true ∧
    (findOneEmployee [⟨"EMP001", some "Demo User", some "IT", "12345", true⟩,
        ⟨"555501254121", some "User 555501254121", some "IT", "12345", true⟩]
      "555501254121").isSome = true ∧
    seed_employee (⟨true,
        [⟨"EMP001", some "Demo User", some "IT", "12345", true⟩,
         ⟨"555501254121", some "User 555501254121", some "IT", "12345", true⟩],
        [], [], 0⟩ : Store Unit) =
      ⟨true,
        [⟨"EMP001", some "Demo User", some "IT", "12345", true⟩,
         ⟨"555501254121", some "User 555501254121", some "IT", "12345", true⟩],
        [], [], 0⟩ :=
  ⟨by decide, by decide,
    seed_employee_idempotent_when_present _ (by decide) (by decide)⟩

/-- Witness for C10: an inactive employee record still logs in and receives
a session token with the record's display fields. -/
theorem login_ignores_is_active_witness :
    (⟨true, [⟨"EMP003", some "Dormant User", some "HR", "pw9", false⟩],
      [], [], 0⟩ : Store Unit).dbConfigured = true ∧
    findOneEmployee [⟨"EMP003", some "Dormant User", some "HR", "pw9", false⟩] "EMP003" =
      some ⟨"EMP003", some "Dormant User", some "HR", "pw9", false⟩ ∧
    (⟨"EMP003", some "Dormant User", some "HR", "pw9", false⟩ : EmployeeDoc).is_active = false ∧
    login (⟨true, [⟨"EMP003", some "Dormant User", some "HR", "pw9", false⟩],
        [], [], 0⟩ : Store Unit) "EMP003" "pw9" "tk3" =
      Except.ok (⟨"tk3", "EMP003", some "Dormant User", some "HR"⟩,
        ⟨true, [⟨"EMP003", some "Dormant User", some "HR", "pw9", false⟩],
          [⟨"tk3", "EMP003"⟩], [], 0⟩) :=
  ⟨rfl, by decide, rfl,
    login_ignores_is_active _ "EMP003" "pw9" "tk3"
      ⟨"EMP003", some "Dormant User", some "HR", "pw9", false⟩
      rfl (by decide) rfl rfl⟩
